import Mathlib

/-!
# Verification of the `WebSocketView` dispatch/validation core

Shallow embedding of `django_aws_api_gateway_websockets/views.py`:
the `WebSocketView` class-based view that validates headers, checks the
calling gateway's identity, and dispatches inbound WebSocket-style events
(connect / disconnect / keyed application messages) to handlers.

Modelling conventions:
* An HTTP request is an `Event`: a header association list (Django's
  `request.headers` in its canonical `Titlecase-With-Dashes` key form),
  the HTTP method string, the URL slug (`self.kwargs['slug']`) and the
  JSON-decoded body (`self.body`, produced by `setup` from `request.body`;
  route-key values are strings, the only shape the dispatch logic consumes).
* Django responses become the `Response` inductive; the human-readable
  `f`-string messages are abstracted to `ErrMsg` constructors carrying
  exactly the data the source interpolates into each message.
* Python's `return`/`raise` distinction is `Except Exc PyVal`: a handler
  either returns a Python value (a response, a bool, or `None`) or raises.
* Logging (`logger.warning` / `logger.debug`) is side-effect-free here and
  is dropped; `_add_user_to_request` is `pass` in the source, a no-op.
* CPython string identity: `x is not y` between a header value taken from
  the request and a freshly constructed f-string compares object identity,
  not content; the two are distinct heap objects for non-interned strings,
  so the test is `true` whatever the contents. `strIsNot` models this.
-/

/-- Python truthiness of an optional string: `None` and `""` are falsy. -/
def pyTruthy : Option String → Bool
  | none => false
  | some s => s != ""

/-- Python `str(x)` as used when an `Option String` is interpolated into an
f-string: `None` renders as `"None"`. -/
def pyStr : Option String → String
  | none => "None"
  | some s => s

/-- CPython `a is not b` where `a` is a string taken out of the request and
`b` is a freshly constructed (f-string) object: identity comparison between
distinct heap objects, hence `true` for non-interned strings regardless of
the characters. -/
def strIsNot (_a _b : String) : Bool := true

/-- `prefCheck n h`: `n` is a prefix of `h` (character lists). -/
def prefCheck : List Char → List Char → Bool
  | [], _ => true
  | _ :: _, [] => false
  | a :: n, b :: h => a == b && prefCheck n h

/-- `subCheck n h`: `n` occurs as a contiguous sublist of `h`. -/
def subCheck : List Char → List Char → Bool
  | n, [] => n.isEmpty
  | n, b :: h => prefCheck n (b :: h) || subCheck n h

/-- Python `needle in hay` on strings: substring containment. -/
def strContains (hay needle : String) : Bool :=
  subCheck needle.toList hay.toList

/-- ASCII lowercase of one character (the range HTTP method names use). -/
def charLower (c : Char) : Char :=
  if 65 ≤ c.toNat ∧ c.toNat ≤ 90 then Char.ofNat (c.toNat + 32) else c

/-- Python `str.lower()` as applied to `request.method` (ASCII verbs). -/
def pyLower (s : String) : String := ⟨s.data.map charLower⟩

/-- Structured error messages: each constructor carries the data the source
interpolates into the corresponding `f`-string message. -/
inductive ErrMsg where
  | missingHeaders (expected : List String) (received : List (String × String))
  | invalidUseragent (expected : String) (received : String)
  | routeSelectionKeyMissing (key : String)
  | missingConnectionHeaders (expected : List String) (received : List (String × String))
  | hostNotAllowed (host : String) (allowed : List String)
  | hostNotInOrigin (host : String) (origin : String)
deriving Repr, DecidableEq

/-- Responses the view constructs: `JsonResponse` (success, JSON object body),
`HttpResponseBadRequest` (message), and Django's `HttpResponseNotAllowed`
(the distinct 405 status produced by `http_method_not_allowed`). -/
inductive Response where
  | success (body : List (String × String))
  | badRequest (msg : ErrMsg)
  | methodNotAllowed
deriving Repr, DecidableEq

/-- A Python value a handler can `return` out of `dispatch`: an HTTP response,
a bare bool (the `_expected_*` predicate methods), or `None`. -/
inductive PyVal where
  | resp (r : Response)
  | pyBool (b : Bool)
  | pyNone
deriving Repr, DecidableEq

/-- Exceptions the dispatch core can raise: `NotImplementedError` (from
`default`), `TypeError` (calling a non-callable attribute or one whose
signature does not accept a single request argument), and `RecursionError`
(unbounded re-entry when `dispatch` resolves to itself). -/
inductive Exc where
  | notImplementedErr (msg : String)
  | typeErr
  | recursionErr
deriving Repr, DecidableEq

/-- An inbound event: Django request headers (first-match association list,
keys in Django's canonical form), HTTP method, URL slug and decoded body. -/
structure Event where
  headers : List (String × String)
  method : String
  slug : String
  decodedBody : List (String × String)

/-- `request.headers[name]` under the presence guarantee the dispatch flow
establishes before each access (required-header checks run first); absent
keys default to `""` in the model. -/
def hdrD (e : Event) (name : String) : String :=
  (List.lookup name e.headers).getD ""

/-- `name in request.headers.keys()`. -/
def hasHdr (e : Event) (name : String) : Bool :=
  (List.lookup name e.headers).isSome

/-- Django `settings` as consumed by the view: `settings.ALLOWED_HOSTS`. -/
structure Settings where
  ALLOWED_HOSTS : List String

/-- A subclass-supplied application handler (the methods a concrete subclass
adds for its route keys). -/
def Handler : Type := Event → Except Exc PyVal

/-- The `WebSocketView` class: its class attributes, plus the association
list of attributes a concrete subclass adds (Python attribute lookup checks
the subclass before the base class). -/
structure WebSocketView where
  route_selection_key : String
  aws_api_gateway_id : Option String
  required_headers : List String
  required_connection_headers : List String
  expected_useragent_prefix : String
  subclassHandlers : List (String × Handler)

/-- The class-attribute defaults of `WebSocketView` with no subclass
additions. -/
def baseView : WebSocketView where
  route_selection_key := "action"
  aws_api_gateway_id := none
  required_headers :=
    ["Host", "X-Real-Ip", "X-Forwarded-For", "X-Forwarded-Proto", "Connection",
     "Content-Length", "X-Forwarded-Port", "X-Amzn-Trace-Id", "Connectionid",
     "User-Agent", "X-Amzn-Apigateway-Api-Id"]
  required_connection_headers :=
    ["Cookie", "Origin", "Sec-Websocket-Extensions", "Sec-Websocket-Key",
     "Sec-Websocket-Version"]
  expected_useragent_prefix := "AmazonAPIGateway_"
  subclassHandlers := []

/-- Modelled from the spec: the set of supported verbs used by the method
check (step 2 of §4.3) — Django's `View.http_method_names`, inherited by the
view; not part of this repository's sources. -/
def http_method_names : List String :=
  ["get", "post", "put", "patch", "delete", "head", "options", "trace"]

namespace WebSocketView

/-- `_expected_headers`: every name in `required_headers` is a key of
`request.headers`. -/
def _expected_headers (v : WebSocketView) (e : Event) : Bool :=
  v.required_headers.all (fun h => hasHdr e h)

/-- `_expected_apigateway_id`:
`self.aws_api_gateway_id and request.headers['X-Amzn-Apigateway-Api-Id'] is not self.aws_api_gateway_id`.
Python returns the falsy `aws_api_gateway_id` itself (`None` or `""`) when it
is unset — modelled as `false` — and otherwise the identity test, which is
`strIsNot` (the header value is a distinct object from the configured id). -/
def _expected_apigateway_id (v : WebSocketView) (e : Event) : Bool :=
  pyTruthy v.aws_api_gateway_id &&
    strIsNot (hdrD e "X-Amzn-Apigateway-Api-Id") (pyStr v.aws_api_gateway_id)

/-- `_expected_useragent`: with `aws_api_gateway_id` set (truthy) the source
compares `request.headers['User-Agent'] is not f'{prefix}{id}'` — object
identity against a fresh f-string, i.e. `strIsNot`; with it unset, the check
is `prefix in user_agent` (substring). -/
def _expected_useragent (v : WebSocketView) (e : Event) : Bool :=
  if pyTruthy v.aws_api_gateway_id then
    strIsNot (hdrD e "User-Agent")
      ( v.expected_useragent_prefix ++ pyStr v.aws_api_gateway_id)
  else
    strContains (hdrD e "User-Agent") ( v.expected_useragent_prefix)

/-- `_check_allowed_hosts` (static): false when `settings.ALLOWED_HOSTS` is
truthy (non-empty) and the `Host` header is not in it; true otherwise. -/
def _check_allowed_hosts (s : Settings) (e : Event) : Bool :=
  if (s.ALLOWED_HOSTS != []) && !(s.ALLOWED_HOSTS.contains (hdrD e "Host")) then
    false
  else
    true

/-- `_check_host_is_in_origin` (static): false when the `Host` header value is
not a substring of the `Origin` header value; true otherwise. -/
def _check_host_is_in_origin (e : Event) : Bool :=
  if !(strContains (hdrD e "Origin") (hdrD e "Host")) then false else true

/-- `_expected_connection_headers`: every name in
`required_connection_headers` is a key of `request.headers`. -/
def _expected_connection_headers (v : WebSocketView) (e : Event) : Bool :=
  v.required_connection_headers.all (fun h => hasHdr e h)

/-- `route_selection_key_missing`: BadRequest naming the configured route
selection key (source message
`f'route_select_key {self.route_selection_key} missing from request body.'`). -/
def route_selection_key_missing (v : WebSocketView) : Except Exc PyVal :=
  .ok (.resp (.badRequest (.routeSelectionKeyMissing ( v.route_selection_key))))

/-- `missing_headers`: BadRequest enumerating expected vs received headers. -/
def missing_headers (v : WebSocketView) (e : Event) : Except Exc PyVal :=
  .ok (.resp (.badRequest (.missingHeaders ( v.required_headers) e.headers)))

/-- `invalid_useragent`: BadRequest carrying the expected
`f'{self.expected_useragent_prefix}{self.aws_api_gateway_id}'` and the
received `User-Agent` header. -/
def invalid_useragent (v : WebSocketView) (e : Event) : Except Exc PyVal :=
  .ok (.resp (.badRequest (.invalidUseragent
    ( v.expected_useragent_prefix ++ pyStr v.aws_api_gateway_id)
    (hdrD e "User-Agent"))))

/-- `connect`: connection-header check, allowed-host check, host-in-origin
check, in that order with short-circuit; on success `JsonResponse(dict())`.
The source's origin-failure message interpolates the `Host` header into both
slots (`f"... not in Origin {request.headers['Host']}"`), reproduced here. -/
def connect (v : WebSocketView) (s : Settings) (e : Event) : Except Exc PyVal :=
  if !(_expected_connection_headers v e) then
    .ok (.resp (.badRequest
      (.missingConnectionHeaders ( v.required_connection_headers) e.headers)))
  else if !(_check_allowed_hosts s e) then
    .ok (.resp (.badRequest (.hostNotAllowed (hdrD e "Host") s.ALLOWED_HOSTS)))
  else if !(_check_host_is_in_origin e) then
    .ok (.resp (.badRequest (.hostNotInOrigin (hdrD e "Host") (hdrD e "Host"))))
  else
    .ok (.resp (.success []))

/-- `disconnect`: returns `JsonResponse(dict())` (persistence is stubbed). -/
def disconnect : Except Exc PyVal :=
  .ok (.resp (.success []))

/-- `default`: raises `NotImplementedError` unconditionally. -/
def default : Except Exc PyVal :=
  .error (.notImplementedErr "This logic needs to be defined within the subclass")

/-- Modelled from the spec: Django `View.http_method_not_allowed`, the
handler dispatch falls back to for unsupported verbs; it produces the
distinct 405-status `HttpResponseNotAllowed` (§4.3 step 2, §7); not part of
this repository's sources. -/
def http_method_not_allowed : Except Exc PyVal :=
  .ok (.resp .methodNotAllowed)

end WebSocketView

/-- The bool-returning predicate methods of the view, reachable through
`getattr` like any other attribute. -/
inductive BoolMethod where
  | expectedHeaders
  | expectedApigatewayId
  | expectedUseragent
  | expectedConnectionHeaders
  | checkAllowedHosts
  | checkHostIsInOrigin
deriving Repr, DecidableEq

/-- A reference to an attribute of the view as resolved by
`getattr(self, name, self.default)` in `dispatch`, together with the two
Django-inherited handlers the dispatch chain itself uses. -/
inductive HandlerRef where
  | connectH
  | disconnectH
  | defaultH
  | missingHeadersH
  | invalidUseragentH
  | routeSelectionKeyMissingH
  | httpMethodNotAllowedH
  | dispatchH
  | boolMethodH (m : BoolMethod)
  | noneMethodH
  | notInvocableH
  | subclassH (h : Handler)

namespace WebSocketView

/-- `getattr(self, name, self.default)`: Python attribute lookup checks the
instance/subclass first, then the class namespace; any attribute at all is
found, not only registered application handlers. Data attributes and methods
whose signature cannot be called as `handler(request, *args, **kwargs)`
resolve to `notInvocableH` (invoking them raises `TypeError`); the `pass`-body
`_add_user_to_request` and `setup` return `None`. Unknown names fall back to
the third argument, `self.default`. -/
def getattr (v : WebSocketView) (name : String) : HandlerRef :=
  match List.lookup name v.subclassHandlers with
  | some h => .subclassH h
  | none =>
    if name == "connect" then .connectH
    else if name == "disconnect" then .disconnectH
    else if name == "default" then .defaultH
    else if name == "missing_headers" then .missingHeadersH
    else if name == "invalid_useragent" then .invalidUseragentH
    else if name == "route_selection_key_missing" then .routeSelectionKeyMissingH
    else if name == "http_method_not_allowed" then .httpMethodNotAllowedH
    else if name == "dispatch" then .dispatchH
    else if name == "_expected_headers" then .boolMethodH .expectedHeaders
    else if name == "_expected_apigateway_id" then .boolMethodH .expectedApigatewayId
    else if name == "_expected_useragent" then .boolMethodH .expectedUseragent
    else if name == "_expected_connection_headers" then
      .boolMethodH .expectedConnectionHeaders
    else if name == "_check_allowed_hosts" then .boolMethodH .checkAllowedHosts
    else if name == "_check_host_is_in_origin" then .boolMethodH .checkHostIsInOrigin
    else if name == "_add_user_to_request" then .noneMethodH
    else if name == "setup" then .noneMethodH
    else if name == "_return_bad_request" then .notInvocableH
    else if name == "route_selection_key" then .notInvocableH
    else if name == "model" then .notInvocableH
    else if name == "body" then .notInvocableH
    else if name == "aws_api_gateway_id" then .notInvocableH
    else if name == "required_headers" then .notInvocableH
    else if name == "required_connection_headers" then .notInvocableH
    else if name == "expected_useragent_prefix" then .notInvocableH
    else if name == "http_method_names" then .notInvocableH
    else .defaultH

/-- The body of `dispatch` up to the final `handler(request, *args, **kwargs)`
call: the nested `if`/`elif` chain selecting the handler. `_add_user_to_request`
is `pass` in the source, so the two branches that call it are pure selection. -/
def chooseHandler (v : WebSocketView) (e : Event) : HandlerRef :=
  if _expected_headers v e then
    if http_method_names.contains (pyLower e.method) then
      if e.slug == "connect" then .connectH
      else if e.slug == "disconnect" then
        if !(_expected_useragent v e) then .invalidUseragentH else .disconnectH
      else
        match List.lookup ( v.route_selection_key) e.decodedBody with
        | some name =>
          if !(_expected_useragent v e) then .invalidUseragentH else getattr v name
        | none => .routeSelectionKeyMissingH
    else .httpMethodNotAllowedH
  else .missingHeadersH

/-- Evaluate a bool-returning predicate method when it is called as a
handler (its bool return value is what `dispatch` then returns). -/
def evalBoolMethod (v : WebSocketView) (s : Settings) (e : Event) :
    BoolMethod → Bool
  | .expectedHeaders => _expected_headers v e
  | .expectedApigatewayId => _expected_apigateway_id v e
  | .expectedUseragent => _expected_useragent v e
  | .expectedConnectionHeaders => _expected_connection_headers v e
  | .checkAllowedHosts => _check_allowed_hosts s e
  | .checkHostIsInOrigin => _check_host_is_in_origin e

/-- `handler(request, *args, **kwargs)`: invoke a resolved handler. Fuel
bounds re-entry of `dispatch` through `getattr`; exhausting it models
CPython's `RecursionError` on unbounded recursion. -/
def run : Nat → WebSocketView → Settings → Event → HandlerRef → Except Exc PyVal
  | _, v, s, e, .connectH => connect v s e
  | _, _, _, _, .disconnectH => disconnect
  | _, _, _, _, .defaultH => default
  | _, v, _, e, .missingHeadersH => missing_headers v e
  | _, v, _, e, .invalidUseragentH => invalid_useragent v e
  | _, v, _, _, .routeSelectionKeyMissingH => route_selection_key_missing v
  | _, _, _, _, .httpMethodNotAllowedH => http_method_not_allowed
  | 0, _, _, _, .dispatchH => .error .recursionErr
  | n + 1, v, s, e, .dispatchH => run n v s e (chooseHandler v e)
  | _, v, s, e, .boolMethodH m => .ok (.pyBool (evalBoolMethod v s e m))
  | _, _, _, _, .noneMethodH => .ok .pyNone
  | _, _, _, _, .notInvocableH => .error .typeErr
  | _, _, _, e, .subclassH h => h e

/-- `dispatch`: select the handler, then invoke it. -/
def dispatch (fuel : Nat) (v : WebSocketView) (s : Settings) (e : Event) :
    Except Exc PyVal :=
  run fuel v s e (chooseHandler v e)

end WebSocketView

/-- The attribute names of the (base) `WebSocketView` class namespace: exactly
the names `getattr` finds on the class when no subclass attribute shadows
them. -/
def knownAttrNames : List String :=
  ["connect", "disconnect", "default", "missing_headers", "invalid_useragent",
   "route_selection_key_missing", "http_method_not_allowed", "dispatch",
   "_expected_headers", "_expected_apigateway_id", "_expected_useragent",
   "_expected_connection_headers", "_check_allowed_hosts",
   "_check_host_is_in_origin", "_add_user_to_request", "setup",
   "_return_bad_request", "route_selection_key", "model", "body",
   "aws_api_gateway_id", "required_headers", "required_connection_headers",
   "expected_useragent_prefix", "http_method_names"]

/-- The base-class attributes that are themselves dispatch-style handlers
(callable as `handler(request, *args, **kwargs)` and meant to produce a
response), keyed by the route-key string that reaches them via `getattr`. -/
def baseAttrRef (a : String) : Option HandlerRef :=
  if a == "connect" then some .connectH
  else if a == "disconnect" then some .disconnectH
  else if a == "missing_headers" then some .missingHeadersH
  else if a == "invalid_useragent" then some .invalidUseragentH
  else if a == "route_selection_key_missing" then some .routeSelectionKeyMissingH
  else if a == "http_method_not_allowed" then some .httpMethodNotAllowedH
  else if a == "dispatch" then some .dispatchH
  else none

/-- Empty `ALLOWED_HOSTS` (allow any host). -/
def s0 : Settings := ⟨[]⟩

/-- A header set carrying every name of `required_headers`, with the given
`User-Agent` value, `Host = a.com` and `X-Amzn-Apigateway-Api-Id = abc`. -/
def stdHeadersUA (ua : String) : List (String × String) :=
  [("Host", "a.com"), ("X-Real-Ip", "1.2.3.4"), ("X-Forwarded-For", "1.2.3.4"),
   ("X-Forwarded-Proto", "https"), ("Connection", "upgrade"),
   ("Content-Length", "0"), ("X-Forwarded-Port", "443"),
   ("X-Amzn-Trace-Id", "trace"), ("Connectionid", "c1"), ("User-Agent", ua),
   ("X-Amzn-Apigateway-Api-Id", "abc")]

/-- The additional connection-establishment headers, with
`Origin = https://a.com`. -/
def connExtraHeaders : List (String × String) :=
  [("Cookie", "session=x"), ("Origin", "https://a.com"),
   ("Sec-Websocket-Extensions", "permessage-deflate"),
   ("Sec-Websocket-Key", "k"), ("Sec-Websocket-Version", "13")]

/-- The base view configured with `aws_api_gateway_id = 'G1'` (strict
identity mode), no subclass handlers. -/
def viewG1 : WebSocketView :=
  ⟨"action", some "G1", baseView.required_headers,
   baseView.required_connection_headers, "AmazonAPIGateway_", []⟩

/-- Disconnect event whose `User-Agent` is not the expected gateway agent. -/
def evEvilDisc : Event := ⟨stdHeadersUA "Evil/1.0", "POST", "disconnect", []⟩

/-- Event with an unsupported HTTP verb. -/
def evBrew : Event :=
  ⟨stdHeadersUA "AmazonAPIGateway_abc", "BREW", "message", [("action", "ping")]⟩

/-- Well-formed disconnect event from the gateway. -/
def evDiscOk : Event :=
  ⟨stdHeadersUA "AmazonAPIGateway_abc", "POST", "disconnect", []⟩

/-- Well-formed connect event: all general and connection headers present,
`Host = a.com`, `Origin = https://a.com`. -/
def evConn : Event :=
  ⟨stdHeadersUA "AmazonAPIGateway_abc" ++ connExtraHeaders, "POST", "connect", []⟩

/-- Application event routed to the unregistered key `ping`. -/
def evPing : Event :=
  ⟨stdHeadersUA "AmazonAPIGateway_abc", "POST", "message", [("action", "ping")]⟩

/-- Application event whose body lacks the route selection key. -/
def evNoKey : Event :=
  ⟨stdHeadersUA "AmazonAPIGateway_abc", "POST", "message", []⟩

/-- Event missing the required `Host` header (all other required headers
present). -/
def evMissingHost : Event :=
  ⟨(stdHeadersUA "AmazonAPIGateway_abc").tail, "POST", "message", []⟩

/-- Minimal event with `Host` a substring of `Origin`. -/
def evHostOrigin : Event :=
  ⟨[("Host", "a.com"), ("Origin", "https://a.com")], "GET", "connect", []⟩

/-- Minimal event whose `Host` is not a substring of `Origin`. -/
def evHostOriginB : Event :=
  ⟨[("Host", "a.com"), ("Origin", "https://b.com")], "GET", "connect", []⟩

/-- Application event whose route key names the base-class error handler
`missing_headers`. -/
def evActMissingHeaders : Event :=
  ⟨stdHeadersUA "AmazonAPIGateway_abc", "POST", "message",
   [("action", "missing_headers")]⟩

lemma prefCheck_iff (n h : List Char) : prefCheck n h = true ↔ ∃ t, h = n ++ t := by
  induction n generalizing h with
  | nil => simp [prefCheck]
  | cons a n ih =>
    cases h with
    | nil => simp [prefCheck]
    | cons b h2 =>
      simp only [prefCheck, Bool.and_eq_true, beq_iff_eq, ih, List.cons_append]
      constructor
      · rintro ⟨rfl, t, rfl⟩
        exact ⟨t, rfl⟩
      · rintro ⟨t, het⟩
        injection het with h1 h2
        exact ⟨h1.symm, t, h2⟩

lemma subCheck_iff (n h : List Char) : subCheck n h = true ↔ ∃ p q, h = p ++ n ++ q := by
  induction h with
  | nil =>
    simp only [subCheck, List.isEmpty_iff]
    constructor
    · rintro rfl
      exact ⟨[], [], rfl⟩
    · rintro ⟨p, q, hpq⟩
      have h2 := hpq.symm
      simp only [List.append_eq_nil] at h2
      exact h2.1.2
  | cons b h2 ih =>
    simp only [subCheck, Bool.or_eq_true, prefCheck_iff, ih]
    constructor
    · rintro (⟨t, ht⟩ | ⟨p, q, rfl⟩)
      · exact ⟨[], t, by simpa using ht⟩
      · exact ⟨b :: p, q, rfl⟩
    · rintro ⟨p, q, hpq⟩
      cases p with
      | nil => exact Or.inl ⟨q, by simpa using hpq⟩
      | cons c p2 =>
        injection hpq with h1 h2
        exact Or.inr ⟨p2, q, h2⟩

/-- The executable substring check agrees with the mathematical
characterisation: `needle` occurs in `hay` iff `hay` splits around it. -/
lemma strContains_iff (hay needle : String) :
    strContains hay needle = true ↔ ∃ p q : String, hay = p ++ needle ++ q := by
  unfold strContains
  rw [subCheck_iff]
  constructor
  · rintro ⟨p, q, hpq⟩
    refine ⟨⟨p⟩, ⟨q⟩, String.ext ?_⟩
    simpa [String.data_append] using hpq
  · rintro ⟨p, q, rfl⟩
    exact ⟨p.data, q.data, by simp [String.data_append]⟩

/-- A required header absent from the event falsifies `_expected_headers`. -/
lemma expected_headers_false_of_absent (v : WebSocketView) (e : Event)
    (h : String) (hmem : h ∈ v.required_headers)
    (habs : List.lookup h e.headers = none) :
    WebSocketView._expected_headers v e = false := by
  by_contra hx
  rw [Bool.not_eq_false, WebSocketView._expected_headers, List.all_eq_true] at hx
  have hs := hx h hmem
  rw [hasHdr, habs] at hs
  simp at hs

/-- A name that is neither a subclass attribute nor in the class namespace
resolves to the `getattr` default, `self.default`. -/
lemma getattr_unknown (v : WebSocketView) (a : String)
    (hnosub : List.lookup a v.subclassHandlers = none)
    (hnoattr : a ∉ knownAttrNames) :
    WebSocketView.getattr v a = .defaultH := by
  simp only [knownAttrNames, List.mem_cons, List.not_mem_nil, or_false, not_or] at hnoattr
  simp [WebSocketView.getattr, hnosub, hnoattr]

lemma run_connectH (n : Nat) (v : WebSocketView) (s : Settings) (e : Event) :
    WebSocketView.run n v s e .connectH = WebSocketView.connect v s e := by
  cases n <;> rfl

lemma run_disconnectH (n : Nat) (v : WebSocketView) (s : Settings) (e : Event) :
    WebSocketView.run n v s e .disconnectH = WebSocketView.disconnect := by
  cases n <;> rfl

lemma run_defaultH (n : Nat) (v : WebSocketView) (s : Settings) (e : Event) :
    WebSocketView.run n v s e .defaultH = WebSocketView.default := by
  cases n <;> rfl

lemma run_missingHeadersH (n : Nat) (v : WebSocketView) (s : Settings) (e : Event) :
    WebSocketView.run n v s e .missingHeadersH = WebSocketView.missing_headers v e := by
  cases n <;> rfl

lemma run_invalidUseragentH (n : Nat) (v : WebSocketView) (s : Settings) (e : Event) :
    WebSocketView.run n v s e .invalidUseragentH = WebSocketView.invalid_useragent v e := by
  cases n <;> rfl

lemma run_routeSelectionKeyMissingH (n : Nat) (v : WebSocketView) (s : Settings)
    (e : Event) :
    WebSocketView.run n v s e .routeSelectionKeyMissingH =
      WebSocketView.route_selection_key_missing v := by
  cases n <;> rfl

lemma run_httpMethodNotAllowedH (n : Nat) (v : WebSocketView) (s : Settings)
    (e : Event) :
    WebSocketView.run n v s e .httpMethodNotAllowedH =
      WebSocketView.http_method_not_allowed := by
  cases n <;> rfl

/-- Claim C1: design intent of the strict identity check — with
`aws_api_gateway_id` set, `_expected_useragent` should hold iff the
`User-Agent` equals `expected_useragent_prefix + aws_api_gateway_id` and any
other value should branch to `invalid_useragent`. The code compares with
`is not`, so at the failing input below (User-Agent `Evil/1.0`, expected
`AmazonAPIGateway_G1`) the check passes and dispatch runs `disconnect`
successfully instead of rejecting. -/
theorem c1_strict_useragent_slip :
    WebSocketView._expected_useragent viewG1 evEvilDisc = true ∧
    hdrD evEvilDisc "User-Agent" ≠
      ( WebSocketView.expected_useragent_prefix viewG1 ++
        pyStr viewG1.aws_api_gateway_id) ∧
    WebSocketView.chooseHandler viewG1 evEvilDisc = .disconnectH ∧
    WebSocketView.dispatch 1 viewG1 s0 evEvilDisc = .ok (.resp (.success [])) :=
  ⟨by decide, by decide, rfl, rfl⟩

/-- Claim C2: with `aws_api_gateway_id` set (truthy), the strict branch of
`_expected_useragent` is a pass-through: it returns `true` for every event,
any two events get the same result, and the identity guard in `dispatch`
never diverts the disconnect or application-route paths to the
`invalid_useragent` handler. -/
theorem c2_strict_identity_pass_through (v : WebSocketView) (e e2 : Event)
    (hgid : pyTruthy v.aws_api_gateway_id = true) :
    WebSocketView._expected_useragent v e = true ∧
    WebSocketView._expected_useragent v e = WebSocketView._expected_useragent v e2 ∧
    (e.slug = "disconnect" → WebSocketView._expected_headers v e = true →
      http_method_names.contains (pyLower e.method) = true →
      WebSocketView.chooseHandler v e = .disconnectH) ∧
    (e.slug ≠ "connect" → e.slug ≠ "disconnect" →
      ∀ a, List.lookup ( WebSocketView.route_selection_key v) e.decodedBody = some a →
        WebSocketView._expected_headers v e = true →
        http_method_names.contains (pyLower e.method) = true →
        WebSocketView.chooseHandler v e = WebSocketView.getattr v a) := by
  have hua : ∀ e3 : Event, WebSocketView._expected_useragent v e3 = true := by
    intro e3
    simp [WebSocketView._expected_useragent, hgid, strIsNot]
  refine ⟨hua e, (hua e).trans (hua e2).symm, ?_, ?_⟩
  · intro hs hh hm
    have hm2 : pyLower e.method ∈ http_method_names := by simpa using hm
    simp [WebSocketView.chooseHandler, hh, hm2, hs, hua e]
  · intro hs1 hs2 a ha hh hm
    have hm2 : pyLower e.method ∈ http_method_names := by simpa using hm
    simp [WebSocketView.chooseHandler, hh, hm2, ha, hua e, hs1, hs2]

/-- Claim C2 witness: concrete strict-mode view and events. -/
theorem c2_witness :
    pyTruthy viewG1.aws_api_gateway_id = true ∧
    WebSocketView._expected_useragent viewG1 evEvilDisc = true ∧
    WebSocketView._expected_useragent viewG1 evEvilDisc =
      WebSocketView._expected_useragent viewG1 evDiscOk := by
  have h := c2_strict_identity_pass_through viewG1 evEvilDisc evDiscOk (by decide)
  exact ⟨by decide, h.1, h.2.1⟩

/-- Claim C3: an event lacking any required header falsifies
`_expected_headers`, and `dispatch` short-circuits to the `missing_headers`
handler, returning its BadRequest without reaching any lifecycle or
application handler. -/
theorem c3_missing_required_header (n : Nat) (v : WebSocketView) (s : Settings)
    (e : Event) (h : String) (hmem : h ∈ v.required_headers)
    (habs : List.lookup h e.headers = none) :
    WebSocketView._expected_headers v e = false ∧
    WebSocketView.chooseHandler v e = .missingHeadersH ∧
    WebSocketView.dispatch n v s e =
      .ok (.resp (.badRequest (.missingHeaders ( v.required_headers) e.headers))) := by
  have hf := expected_headers_false_of_absent v e h hmem habs
  have hch : WebSocketView.chooseHandler v e = .missingHeadersH := by
    simp [WebSocketView.chooseHandler, hf]
  refine ⟨hf, hch, ?_⟩
  rw [WebSocketView.dispatch, hch, run_missingHeadersH, WebSocketView.missing_headers]

/-- Claim C3 witness: the event missing `Host`. -/
theorem c3_witness :
    "Host" ∈ baseView.required_headers ∧
    List.lookup "Host" evMissingHost.headers = none ∧
    WebSocketView.dispatch 1 baseView s0 evMissingHost =
      .ok (.resp (.badRequest
        (.missingHeaders baseView.required_headers evMissingHost.headers))) := by
  have h := c3_missing_required_header 1 baseView s0 evMissingHost "Host"
    (by decide) (by rfl)
  exact ⟨by decide, rfl, h.2.2⟩

/-- Claim C4 counterexample: `dispatch` is not limited to Success and
BadRequest — an unsupported verb yields the distinct-status
`methodNotAllowed` response, and an unhandled route key reaching `default`
raises `NotImplementedError` rather than returning a response. -/
theorem c4_counterexample :
    WebSocketView.dispatch 1 baseView s0 evBrew = .ok (.resp .methodNotAllowed) ∧
    WebSocketView.dispatch 1 baseView s0 evPing =
      .error (.notImplementedErr
        "This logic needs to be defined within the subclass") :=
  ⟨rfl, rfl⟩

/-- Claim C4 (amended): on the lifecycle and error-handler paths — connect,
disconnect, missing-headers, invalid-useragent, route-key-missing — the
response is exactly a Success with JSON body or a BadRequest with a message;
the method-check path additionally produces a distinct-status
MethodNotAllowed response and the default handler raises. -/
theorem c4_two_kinds_on_core_paths (n : Nat) (v : WebSocketView) (s : Settings)
    (e : Event)
    (h : WebSocketView.chooseHandler v e = .connectH ∨
         WebSocketView.chooseHandler v e = .disconnectH ∨
         WebSocketView.chooseHandler v e = .missingHeadersH ∨
         WebSocketView.chooseHandler v e = .invalidUseragentH ∨
         WebSocketView.chooseHandler v e = .routeSelectionKeyMissingH) :
    (∃ b, WebSocketView.dispatch n v s e = .ok (.resp (.success b))) ∨
    (∃ m, WebSocketView.dispatch n v s e = .ok (.resp (.badRequest m))) := by
  rw [WebSocketView.dispatch]
  rcases h with h | h | h | h | h <;> rw [h]
  · rw [run_connectH, WebSocketView.connect]
    split
    · exact Or.inr ⟨_, rfl⟩
    · split
      · exact Or.inr ⟨_, rfl⟩
      · split
        · exact Or.inr ⟨_, rfl⟩
        · exact Or.inl ⟨_, rfl⟩
  · rw [run_disconnectH]
    exact Or.inl ⟨_, rfl⟩
  · rw [run_missingHeadersH]
    exact Or.inr ⟨_, rfl⟩
  · rw [run_invalidUseragentH]
    exact Or.inr ⟨_, rfl⟩
  · rw [run_routeSelectionKeyMissingH]
    exact Or.inr ⟨_, rfl⟩

/-- Claim C4 witness: the well-formed disconnect event takes a core path and
gets one of the two response kinds. -/
theorem c4_witness :
    WebSocketView.chooseHandler baseView evDiscOk = .disconnectH ∧
    ((∃ b, WebSocketView.dispatch 1 baseView s0 evDiscOk = .ok (.resp (.success b))) ∨
     (∃ m, WebSocketView.dispatch 1 baseView s0 evDiscOk =
        .ok (.resp (.badRequest m)))) :=
  ⟨rfl, c4_two_kinds_on_core_paths 1 baseView s0 evDiscOk (Or.inr (Or.inl rfl))⟩

/-- Claim C5: `connect` runs the connection-header check, the allowed-host
check and the host-in-origin check in that order with short-circuit — the
first failing check determines the BadRequest — and when all three pass it
returns a Success with empty JSON body; on the connect slug `dispatch`
selects this handler directly. -/
theorem c5_connect_three_checks (v : WebSocketView) (s : Settings) (e : Event) :
    (WebSocketView._expected_connection_headers v e = false →
      WebSocketView.connect v s e = .ok (.resp (.badRequest
        (.missingConnectionHeaders ( v.required_connection_headers) e.headers)))) ∧
    (WebSocketView._expected_connection_headers v e = true →
      WebSocketView._check_allowed_hosts s e = false →
      WebSocketView.connect v s e = .ok (.resp (.badRequest
        (.hostNotAllowed (hdrD e "Host") s.ALLOWED_HOSTS)))) ∧
    (WebSocketView._expected_connection_headers v e = true →
      WebSocketView._check_allowed_hosts s e = true →
      WebSocketView._check_host_is_in_origin e = false →
      WebSocketView.connect v s e = .ok (.resp (.badRequest
        (.hostNotInOrigin (hdrD e "Host") (hdrD e "Host"))))) ∧
    (WebSocketView._expected_connection_headers v e = true →
      WebSocketView._check_allowed_hosts s e = true →
      WebSocketView._check_host_is_in_origin e = true →
      WebSocketView.connect v s e = .ok (.resp (.success []))) ∧
    (e.slug = "connect" → WebSocketView._expected_headers v e = true →
      http_method_names.contains (pyLower e.method) = true →
      WebSocketView.chooseHandler v e = .connectH) := by
  refine ⟨?_, ?_, ?_, ?_, ?_⟩
  · intro h1
    simp [WebSocketView.connect, h1]
  · intro h1 h2
    simp [WebSocketView.connect, h1, h2]
  · intro h1 h2 h3
    simp [WebSocketView.connect, h1, h2, h3]
  · intro h1 h2 h3
    simp [WebSocketView.connect, h1, h2, h3]
  · intro hs hh hm
    have hm2 : pyLower e.method ∈ http_method_names := by simpa using hm
    simp [WebSocketView.chooseHandler, hh, hm2, hs]

/-- Claim C5 witness: all connection headers present, `Host = a.com`,
`Origin = https://a.com`, empty allow-list — Success with empty body. -/
theorem c5_witness :
    WebSocketView._expected_connection_headers baseView evConn = true ∧
    WebSocketView._check_allowed_hosts s0 evConn = true ∧
    WebSocketView._check_host_is_in_origin evConn = true ∧
    WebSocketView.connect baseView s0 evConn = .ok (.resp (.success [])) :=
  ⟨by decide, by decide, by decide,
   (c5_connect_three_checks baseView s0 evConn).2.2.2.1 (by decide) (by decide)
     (by decide)⟩

/-- Claim C6: whenever application-route handler resolution falls back to the
`default` handler (the route-key value names no attribute of the view), the
invocation raises `NotImplementedError` — never a silent Success. -/
theorem c6_default_raises (n : Nat) (v : WebSocketView) (s : Settings) (e : Event)
    (a : String) (hs1 : e.slug ≠ "connect") (hs2 : e.slug ≠ "disconnect")
    (hkey : List.lookup ( WebSocketView.route_selection_key v) e.decodedBody = some a)
    (hnosub : List.lookup a v.subclassHandlers = none)
    (hnoattr : a ∉ knownAttrNames)
    (hhdr : WebSocketView._expected_headers v e = true)
    (hm : http_method_names.contains (pyLower e.method) = true)
    (hua : WebSocketView._expected_useragent v e = true) :
    WebSocketView.run n v s e .defaultH =
      .error (.notImplementedErr
        "This logic needs to be defined within the subclass") ∧
    WebSocketView.chooseHandler v e = .defaultH ∧
    WebSocketView.dispatch n v s e =
      .error (.notImplementedErr
        "This logic needs to be defined within the subclass") := by
  have hm2 : pyLower e.method ∈ http_method_names := by simpa using hm
  have hg := getattr_unknown v a hnosub hnoattr
  have hch : WebSocketView.chooseHandler v e = .defaultH := by
    simp [WebSocketView.chooseHandler, hhdr, hm2, hs1, hs2, hkey, hua, hg]
  refine ⟨run_defaultH n v s e, hch, ?_⟩
  rw [WebSocketView.dispatch, hch, run_defaultH, WebSocketView.default]

/-- Claim C6 witness: `action = ping` with no `ping` handler registered. -/
theorem c6_witness :
    List.lookup "action" evPing.decodedBody = some "ping" ∧
    "ping" ∉ knownAttrNames ∧
    WebSocketView.dispatch 1 baseView s0 evPing =
      .error (.notImplementedErr
        "This logic needs to be defined within the subclass") := by
  have h := c6_default_raises 1 baseView s0 evPing "ping" (by decide) (by decide)
    rfl rfl (by decide) (by decide) (by decide) (by decide)
  exact ⟨rfl, by decide, h.2.2⟩

/-- Claim C7: a non-lifecycle event whose decoded body lacks the route
selection key is answered by the `route_selection_key_missing` BadRequest —
whose message data is the missing key itself — and no other handler is
selected. -/
theorem c7_route_key_missing (n : Nat) (v : WebSocketView) (s : Settings)
    (e : Event) (hs1 : e.slug ≠ "connect") (hs2 : e.slug ≠ "disconnect")
    (hhdr : WebSocketView._expected_headers v e = true)
    (hm : http_method_names.contains (pyLower e.method) = true)
    (hkey : List.lookup ( WebSocketView.route_selection_key v) e.decodedBody = none) :
    WebSocketView.chooseHandler v e = .routeSelectionKeyMissingH ∧
    WebSocketView.dispatch n v s e =
      .ok (.resp (.badRequest
        (.routeSelectionKeyMissing ( WebSocketView.route_selection_key v)))) := by
  have hm2 : pyLower e.method ∈ http_method_names := by simpa using hm
  have hch : WebSocketView.chooseHandler v e = .routeSelectionKeyMissingH := by
    simp [WebSocketView.chooseHandler, hhdr, hm2, hs1, hs2, hkey]
  refine ⟨hch, ?_⟩
  rw [WebSocketView.dispatch, hch, run_routeSelectionKeyMissingH,
    WebSocketView.route_selection_key_missing]

/-- Claim C7 witness: `slug = message`, empty body. -/
theorem c7_witness :
    List.lookup "action" evNoKey.decodedBody = none ∧
    WebSocketView.dispatch 1 baseView s0 evNoKey =
      .ok (.resp (.badRequest (.routeSelectionKeyMissing "action"))) := by
  have h := c7_route_key_missing 1 baseView s0 evNoKey (by decide) (by decide)
    (by decide) (by decide) rfl
  exact ⟨rfl, h.2⟩

/-- Claim C8: `_check_host_is_in_origin` holds exactly when the `Host` header
value occurs as a contiguous substring of the `Origin` header value. -/
theorem c8_host_within_origin (e : Event) (hv ov : String)
    (hh : List.lookup "Host" e.headers = some hv)
    (ho : List.lookup "Origin" e.headers = some ov) :
    WebSocketView._check_host_is_in_origin e = true ↔
      ∃ p q : String, ov = p ++ hv ++ q := by
  simp only [WebSocketView._check_host_is_in_origin, hdrD, hh, ho, Option.getD_some]
  rw [← strContains_iff ov hv]
  cases h : strContains ov hv <;> simp [h]

/-- Claim C8 witness: `Host = a.com` inside `Origin = https://a.com` passes;
`Origin = https://b.com` fails. -/
theorem c8_witness :
    WebSocketView._check_host_is_in_origin evHostOrigin = true ∧
    WebSocketView._check_host_is_in_origin evHostOriginB = false :=
  ⟨(c8_host_within_origin evHostOrigin "a.com" "https://a.com" rfl rfl).mpr
     ⟨"https://", "", by decide⟩,
   by decide⟩

/-- Claim C9 counterexample: with `aws_api_gateway_id = G1` set and header
`X-Amzn-Apigateway-Api-Id = abc` (no match), `_expected_apigateway_id`
nevertheless returns `true` — the claimed equivalence with header equality
fails. -/
theorem c9_counterexample :
    hdrD evEvilDisc "X-Amzn-Apigateway-Api-Id" ≠ pyStr viewG1.aws_api_gateway_id ∧
    WebSocketView._expected_apigateway_id viewG1 evEvilDisc = true := by
  constructor
  · decide
  · decide

/-- Claim C9 (amended): when `aws_api_gateway_id` is set (truthy) the check
returns `true` for every event — the `is not` object-identity comparison
against a request-supplied (non-interned) header string holds whether or not
the values match; when unset it returns the falsy configured value. -/
theorem c9_apigateway_check_truthiness (v : WebSocketView) (e : Event) :
    (pyTruthy v.aws_api_gateway_id = true →
      WebSocketView._expected_apigateway_id v e = true) ∧
    (pyTruthy v.aws_api_gateway_id = false →
      WebSocketView._expected_apigateway_id v e = false) := by
  constructor <;> intro h <;>
    simp [WebSocketView._expected_apigateway_id, h, strIsNot]

/-- Claim C9 witness: the strict-mode view. -/
theorem c9_witness :
    pyTruthy viewG1.aws_api_gateway_id = true ∧
    WebSocketView._expected_apigateway_id viewG1 evEvilDisc = true :=
  ⟨by decide, (c9_apigateway_check_truthiness viewG1 evEvilDisc).1 (by decide)⟩

/-- A route-key name naming a base-class handler attribute is resolved by
`getattr` to that attribute, never to the `default` fallback. -/
lemma getattr_base (v : WebSocketView) (a : String) (r : HandlerRef)
    (hnosub : List.lookup a v.subclassHandlers = none)
    (hattr : baseAttrRef a = some r) :
    WebSocketView.getattr v a = r ∧ r ≠ .defaultH := by
  rw [baseAttrRef] at hattr
  repeat
    split at hattr <;>
      try (rename_i hc
           simp only [beq_iff_eq] at hc
           subst hc
           injection hattr with hr
           subst hr
           exact ⟨by unfold WebSocketView.getattr; rw [hnosub]; rfl,
                  fun h => HandlerRef.noConfusion h⟩)
  exact Option.noConfusion hattr

/-- Claim C10: on an application route, when the route-key value names a
base-class handler attribute — lifecycle and error handlers such as
`connect`, `disconnect`, `missing_headers`, or `dispatch` itself — and the
identity check passes, handler resolution is unrestricted attribute lookup:
`getattr` selects exactly that attribute, never the `default` fallback, and
`dispatch` invokes it. -/
theorem c10_unrestricted_attribute_dispatch (n : Nat) (v : WebSocketView)
    (s : Settings) (e : Event) (a : String) (r : HandlerRef)
    (hs1 : e.slug ≠ "connect") (hs2 : e.slug ≠ "disconnect")
    (hkey : List.lookup ( WebSocketView.route_selection_key v) e.decodedBody = some a)
    (hnosub : List.lookup a v.subclassHandlers = none)
    (hattr : baseAttrRef a = some r)
    (hhdr : WebSocketView._expected_headers v e = true)
    (hm : http_method_names.contains (pyLower e.method) = true)
    (hua : WebSocketView._expected_useragent v e = true) :
    WebSocketView.getattr v a = r ∧ r ≠ .defaultH ∧
    WebSocketView.chooseHandler v e = r ∧
    WebSocketView.dispatch n v s e = WebSocketView.run n v s e r := by
  obtain ⟨hga, hnd⟩ := getattr_base v a r hnosub hattr
  have hm2 : pyLower e.method ∈ http_method_names := by simpa using hm
  have hch : WebSocketView.chooseHandler v e = r := by
    simp [WebSocketView.chooseHandler, hhdr, hm2, hs1, hs2, hkey, hua, hga]
  refine ⟨hga, hnd, hch, ?_⟩
  rw [WebSocketView.dispatch, hch]

/-- Claim C10 witness: route key `missing_headers` reaches the base-class
error handler itself. -/
theorem c10_witness :
    baseAttrRef "missing_headers" = some .missingHeadersH ∧
    WebSocketView.getattr baseView "missing_headers" = .missingHeadersH ∧
    WebSocketView.chooseHandler baseView evActMissingHeaders = .missingHeadersH ∧
    WebSocketView.dispatch 2 baseView s0 evActMissingHeaders =
      WebSocketView.run 2 baseView s0 evActMissingHeaders .missingHeadersH := by
  have h := c10_unrestricted_attribute_dispatch 2 baseView s0 evActMissingHeaders
    "missing_headers" .missingHeadersH (by decide) (by decide) rfl rfl rfl
    (by decide) (by decide) (by decide)
  exact ⟨rfl, h.1, h.2.2.1, h.2.2.2⟩
